import Mathlib

/-
Verification of the CMP query-portal core (app.py / models.py):
a shallow embedding of the query lifecycle engine (submit_query,
update_status, student_dashboard) and of the additive schema
reconciler (migrate_additive_schema), with theorems settling the
spec claims about them.

Modelling conventions:
- SQLAlchemy tables are Lean lists of row structures; `Query.query.get`
  and `.first()` become `List.find?` (first match); ORM in-place row
  mutation becomes replacement of the first matching row.
- Nullable columns and absent form fields are `Option`; Python string
  truthiness (`if s:`) is `s` being present and nonempty; Python
  `a or b` on form values is `pyOr` / `pyOrS` below.
- `datetime.utcnow()` is an explicit `now : Nat` parameter.
- Best-effort side effects that can raise (FAQ aggregation, outbound
  mail) take an explicit failure flag; the source catches the
  exception, logs, and (for the FAQ block) rolls back the uncommitted
  session changes, which the model reflects by leaving the
  corresponding state component unchanged.
-/

namespace CMP

/-- Python truthiness of a form field / nullable text column:
`None` and the empty string are falsy. -/
def truthy : Option String → Bool
  | none => false
  | some s => s != ""

/-- Python `a or b` on two nullable strings (used for
`response_text or q.response` etc. in `update_status`). -/
def pyOr (a b : Option String) : Option String :=
  match a with
  | some s => if s = "" then b else some s
  | none => b

/-- Python `a or b` where `b` is a non-null string (used for
`status or q.status` and `form.get('category') or 'other'`). -/
def pyOrS (a : Option String) (b : String) : String :=
  match a with
  | some s => if s = "" then b else s
  | none => b

/-- Boolean list membership for strings (Python `c in cols`). -/
def memB (a : String) : List String → Bool
  | [] => false
  | b :: bs => a == b || memB a bs

/-- Drop leading whitespace characters. -/
def dropWhileWs : List Char → List Char
  | [] => []
  | c :: cs => if c.isWhitespace then dropWhileWs cs else c :: cs

/-- Python `str.strip()`: remove leading and trailing whitespace.
(Structurally recursive counterpart of `String.trim`, kept
kernel-computable so concrete witnesses evaluate.) -/
def strip (s : String) : String :=
  ⟨dropWhileWs (dropWhileWs s.data.reverse).reverse⟩

/-- Python `str.lower()` (ASCII case folding, as the source's email
normalisation uses). -/
def lowerStr (s : String) : String :=
  ⟨s.data.map Char.toLower⟩

/-- A row of the `queries` table (models.py, class Query). -/
structure QueryRow where
  id : Nat
  name : String
  email : String
  message : String
  category : Option String
  status : String
  response : Option String
  admin_response : Option String
  admin_reply_text : Option String
  admin_reply_at : Option Nat
  admin_reply_seen : Bool
  student_id : Option Nat
  created_at : Nat
deriving DecidableEq

/-- A row of the `students` table (models.py, class Student); the
textual login handle `students.student_id` is `handle` here, the
numeric primary key is `id`. The password hash is irrelevant to the
claims and omitted. -/
structure StudentRow where
  id : Nat
  handle : String
  name : String
  email : String
  is_blocked : Bool
deriving DecidableEq

/-- A row of the `blocked_emails` table (models.py, class BlockedEmail). -/
structure BlockedEmailRow where
  id : Nat
  email : String
  is_active : Bool
deriving DecidableEq

/-- A row of the `faqs` table (models.py, class FAQ). -/
structure FAQRow where
  id : Nat
  question : String
  answer : Option String
  frequency : Nat
  category : Option String
  from_query_id : Option Nat
  is_active : Bool
deriving DecidableEq

/-- The relational store, plus autoincrement counters for the two
tables the modelled operations insert into. -/
structure DBState where
  queries : List QueryRow
  students : List StudentRow
  faqs : List FAQRow
  blocked_emails : List BlockedEmailRow
  nextQueryId : Nat
  nextFaqId : Nat
deriving DecidableEq

/-- Observable commit / side-effect events, in the order the request
handler performs them. -/
inductive Event
  | commitQueryInsert (qid : Nat)
  | faqAggregationAttempt
  | commitStatusUpdate (qid : Nat)
  | commitReplyTriple (qid : Nat)
  | emailSendAttempt (recipient : String)
deriving DecidableEq

/-- Result of `submit_query` as signalled to the user via `flash`. -/
inductive SubmitResult
  | validationError
  | accountBlocked
  | emailBlocked
  | accepted (queryId : Nat)
deriving DecidableEq

def isAccepted : SubmitResult → Bool
  | .accepted _ => true
  | _ => false

structure SubmitOutcome where
  state : DBState
  result : SubmitResult
  trace : List Event
deriving DecidableEq

/-- Increment the frequency of the first active FAQ row whose question
matches (the ORM `.first()` object that `submit_query` mutates). -/
def incFirst (question : String) : List FAQRow → List FAQRow
  | [] => []
  | f :: fs =>
    if f.question == question && f.is_active then
      { f with frequency := f.frequency + 1 } :: fs
    else
      f :: incFirst question fs

/-- The FAQ row `submit_query` inserts on first occurrence of a
question text: frequency 1, no answer, inheriting the category. -/
def newFaqRow (s : DBState) (question : String) (cat : Option String) : FAQRow :=
  ⟨s.nextFaqId, question, none, 1, cat, none, true⟩

/-- The FAQ auto-update block of `submit_query` (app.py): look up an
active FAQ with identical question text; increment its frequency if
found, otherwise insert a fresh row with frequency 1. -/
def faqAggregate (s : DBState) (question : String) (cat : Option String) : DBState :=
  if s.faqs.any (fun f => f.question == question && f.is_active) then
    { s with faqs := incFirst question s.faqs }
  else
    { s with faqs := s.faqs ++ [newFaqRow s question cat],
             nextFaqId := s.nextFaqId + 1 }

/-- The Query row inserted by an accepted submission (app.py:
`Query(name=..., status='Pending')`). `category` is the already
defaulted category value, which is always nonempty, so the source's
`category.strip() if category else None` always yields the trimmed
category. -/
def insertedQuery (s : DBState) (name email category message : String)
    (sid : Option Nat) (now : Nat) : QueryRow :=
  { id := s.nextQueryId
    name := strip name
    email := strip email
    message := strip message
    category := some (strip category)
    status := "Pending"
    response := none
    admin_response := none
    admin_reply_text := none
    admin_reply_at := none
    admin_reply_seen := false
    student_id := sid
    created_at := now }

/-- The accepting tail of `submit_query`: commit the Query insert,
then attempt FAQ aggregation as a best-effort side effect. A failing
aggregation is caught and rolled back, leaving only the committed
insert. -/
def acceptQuery (s : DBState) (name email category message : String)
    (sid : Option Nat) (faqFails : Bool) (now : Nat) : SubmitOutcome :=
  let q := insertedQuery s name email category message sid now
  let s1 := { s with queries := s.queries ++ [q], nextQueryId := s.nextQueryId + 1 }
  let s2 := if faqFails then s1 else faqAggregate s1 (strip message) (some (strip category))
  ⟨s2, .accepted q.id, [.commitQueryInsert q.id, .faqAggregationAttempt]⟩

/-- The rejecting guards of `submit_query`, in source order: required
fields, then (for a truthy numeric session id) the blocked-student
check, otherwise the active blocked-email check. Returns `none` when
the submission is accepted. -/
def emailBlockedHit (s : DBState) (email : String) : Bool :=
  s.blocked_emails.any fun b => b.email == lowerStr (strip email) && b.is_active

def rejectionOf (s : DBState) (nameF emailF messageF : Option String)
    (sessionSid : Option Nat) : Option SubmitResult :=
  if !(truthy nameF && truthy emailF && truthy messageF) then
    some .validationError
  else
    match sessionSid with
    | some n =>
      if n != 0 then
        match s.students.find? (fun st => st.id == n) with
        | some stu => if stu.is_blocked then some .accountBlocked else none
        | none => none
      else
        if emailBlockedHit s (emailF.getD "") then some .emailBlocked else none
    | none =>
      if emailBlockedHit s (emailF.getD "") then some .emailBlocked else none

/-- `submit_query` (app.py): validate required fields, reject blocked
submitters, insert the Query row (committed first), then run FAQ
aggregation as a best-effort side effect. The session's student id is
the numeric `students.id` stored at login; `faqFails` models an
exception inside the FAQ block. -/
def submit_query (s : DBState) (nameF emailF categoryF messageF : Option String)
    (sessionSid : Option Nat) (faqFails : Bool) (now : Nat) : SubmitOutcome :=
  match rejectionOf s nameF emailF messageF sessionSid with
  | some r => ⟨s, r, []⟩
  | none =>
    acceptQuery s (nameF.getD "") (emailF.getD "") (pyOrS categoryF "other")
      (messageF.getD "") sessionSid faqFails now

/-- Result of `update_status` for the caller. -/
inductive UpdateResult
  | notFound
  | updated
deriving DecidableEq

structure UpdateOutcome where
  state : DBState
  result : UpdateResult
  trace : List Event
  emailDelivered : Bool
deriving DecidableEq

/-- Replace the first row with the given id (the ORM object returned
by `Query.query.get` that `update_status` mutates and commits). -/
def setFirstQuery (i : Nat) (q' : QueryRow) : List QueryRow → List QueryRow
  | [] => []
  | r :: rs => if r.id == i then q' :: rs else r :: setFirstQuery i q' rs

/-- `update_status` (app.py): look up the query; set status (keeping
the old one when the form value is absent or empty) and both response
fields via Python `or` fallbacks; commit; then either attempt the
guest notification email (when the query has no student reference, a
nonempty email, and mail credentials are configured) or, for a
student query, store the in-app reply triple and commit again. A mail
failure is caught and logged without touching the stored state. -/
def update_status (s : DBState) (qid : Nat) (statusF responseF : Option String)
    (mailConfigured emailFails : Bool) (now : Nat) : UpdateOutcome :=
  match s.queries.find? (fun r => r.id == qid) with
  | none => ⟨s, .notFound, [], false⟩
  | some q =>
    let q1 : QueryRow :=
      { q with status := pyOrS statusF q.status
               response := pyOr responseF q.response
               admin_response := pyOr responseF q.admin_response }
    match q.student_id with
    | none =>
      let attempt := q1.email != "" && mailConfigured
      ⟨{ s with queries := setFirstQuery qid q1 s.queries }, .updated,
        .commitStatusUpdate qid ::
          (if attempt then [.emailSendAttempt q1.email] else []),
        attempt && !emailFails⟩
    | some _ =>
      let q2 : QueryRow :=
        { q1 with admin_reply_text := some (strip ((pyOr q1.admin_response responseF).getD ""))
                  admin_reply_at := some now
                  admin_reply_seen := false }
      ⟨{ s with queries := setFirstQuery qid q2 s.queries }, .updated,
        [.commitStatusUpdate qid, .commitReplyTriple qid], false⟩

/-- `student_dashboard` (app.py): fetch the logged-in student's
queries, flip `admin_reply_seen` to true on each fetched query whose
`admin_reply_text` is truthy and not yet seen, commit, and render the
fetched queries. Ordering by `created_at` is presentation-only and
not modelled. Returns the new state and the rendered rows. -/
def student_dashboard (s : DBState) (sessionSid : Option Nat) :
    DBState × List QueryRow :=
  match sessionSid with
  | none => (s, [])
  | some sid =>
    let flip := fun (q : QueryRow) =>
      if q.student_id == some sid && truthy q.admin_reply_text && !q.admin_reply_seen then
        { q with admin_reply_seen := true }
      else q
    ({ s with queries := s.queries.map flip },
      (s.queries.filter (fun q => q.student_id == some sid)).map flip)

/-! ### Schema reconciler (`migrate_additive_schema`) -/

/-- The live schema: for each table, `none` when the table does not
exist, otherwise its column-name list as returned by
`PRAGMA table_info`. -/
structure SchemaState where
  queries : Option (List String)
  students : Option (List String)
  admins : Option (List String)
  faqs : Option (List String)
  blocked_emails : Option (List String)
deriving DecidableEq

/-- Which `ALTER TABLE ... ADD COLUMN` statements raise, by table and
column name. -/
abbrev FailOracle := String → String → Bool

/-- Outcome of one per-entity guarded block of the migration. -/
structure TableRun where
  table : Option (List String)
  added : List String
  failed : Bool
deriving DecidableEq

/-- One per-entity try block of `migrate_additive_schema`: the column
list is read once (`snapshot`; empty when the table is missing), then
each declared column absent from the snapshot is added in order. An
ALTER that raises — because the table is missing or the oracle says
so — aborts the rest of the block (already-executed ALTERs persist,
SQLite DDL being effective immediately) and is logged as a failure. -/
def runAdds (fail : FailOracle) (t : String) (snapshot : List String) :
    Option (List String) → List String → TableRun
  | tbl, [] => ⟨tbl, [], false⟩
  | tbl, c :: cs =>
    if memB c snapshot then runAdds fail t snapshot tbl cs
    else
      match tbl with
      | none => ⟨none, [], true⟩
      | some cols =>
        if fail t c then ⟨some cols, [], true⟩
        else
          let r := runAdds fail t snapshot (some (cols ++ [c])) cs
          ⟨r.table, c :: r.added, r.failed⟩

def migrateTable (fail : FailOracle) (t : String) (declared : List String)
    (tbl : Option (List String)) : TableRun :=
  runAdds fail t (tbl.getD []) tbl declared

/-- Columns `migrate_additive_schema` ensures on `queries`. -/
def queriesDeclared : List String :=
  ["admin_reply_text", "admin_reply_at", "admin_reply_seen", "category"]

/-- Columns `migrate_additive_schema` ensures on `students`. -/
def studentsDeclared : List String := ["is_blocked"]

/-- Columns `migrate_additive_schema` ensures on `admins`. -/
def adminsDeclared : List String :=
  ["name", "email", "is_active", "is_blocked", "created_at"]

/-- Full declared column set of each model (models.py), used by
`db.create_all()` when it creates a missing table. -/
def modelQueriesCols : List String :=
  ["id", "name", "email", "message", "category", "status", "response",
   "admin_response", "admin_reply_text", "admin_reply_at",
   "admin_reply_seen", "student_id", "created_at"]

def modelStudentsCols : List String :=
  ["id", "student_id", "name", "email", "password", "is_blocked"]

def modelAdminsCols : List String :=
  ["id", "username", "password_hash", "name", "full_name", "email",
   "is_active", "is_blocked", "created_at"]

def modelFaqsCols : List String :=
  ["id", "question", "answer", "frequency", "category", "from_query_id",
   "is_active", "created_at"]

def modelBlockedEmailsCols : List String :=
  ["id", "email", "is_active", "created_at"]

/-- `db.create_all()` on one table: create it with the model's full
column set when missing, leave it untouched otherwise. -/
def ensureTable (tbl : Option (List String)) (model : List String) :
    Option (List String) :=
  match tbl with
  | none => some model
  | some cols => some cols

structure MigrationOutcome where
  state : SchemaState
  added : List (String × String)
  errors : List String
deriving DecidableEq

/-- `migrate_additive_schema` (app.py): three per-entity guarded
blocks adding the declared columns missing from each table's column
snapshot, each block's failure only logged, followed by
`db.create_all()` which creates any missing table with its full model
schema. The row-level backfill `UPDATE queries SET category='other'`
is data, not schema, and outside this model. -/
def migrate_additive_schema (fail : FailOracle) (s : SchemaState) :
    MigrationOutcome :=
  let rq := migrateTable fail "queries" queriesDeclared s.queries
  let rs := migrateTable fail "students" studentsDeclared s.students
  let ra := migrateTable fail "admins" adminsDeclared s.admins
  { state :=
      { queries := ensureTable rq.table modelQueriesCols
        students := ensureTable rs.table modelStudentsCols
        admins := ensureTable ra.table modelAdminsCols
        faqs := ensureTable s.faqs modelFaqsCols
        blocked_emails := ensureTable s.blocked_emails modelBlockedEmailsCols }
    added := rq.added.map (fun c => ("queries", c))
              ++ rs.added.map (fun c => ("students", c))
              ++ ra.added.map (fun c => ("admins", c))
    errors := (if rq.failed then ["queries"] else [])
              ++ (if rs.failed then ["students"] else [])
              ++ (if ra.failed then ["admins"] else []) }

/-- The happy-path oracle: no ALTER statement raises. -/
def noFail : FailOracle := fun _ _ => false

/-! ### Concrete fixtures for witnesses and counterexamples -/

def exGuestQuery : QueryRow :=
  ⟨7, "Alice", "alice@x.com", "What time does the library open?",
    some "facilities", "Pending", none, none, none, none, false, none, 0⟩

def exStudentQuery : QueryRow :=
  ⟨9, "Bob", "bob@x.com", "Where is room 12?", some "other",
    "Pending", none, none, none, none, false, some 3, 0⟩

def exStudent : StudentRow := ⟨3, "bob", "Bob", "bob@x.com", false⟩

def exBlockedStudent : StudentRow := ⟨4, "eve", "Eve", "eve@x.com", true⟩

def exBlockedEmailRow : BlockedEmailRow := ⟨1, "x@example.com", true⟩

def exDB : DBState :=
  ⟨[exGuestQuery, exStudentQuery], [exStudent, exBlockedStudent], [],
    [exBlockedEmailRow], 10, 1⟩

def exInactiveFaq : FAQRow :=
  ⟨5, "Where is the gym?", some "Block C", 4, some "facilities", none, false⟩

def exDB2 : DBState := ⟨[], [], [exInactiveFaq], [], 1, 6⟩

def exReplyQuery : QueryRow :=
  ⟨11, "Bob", "bob@x.com", "Any update?", some "other", "Responded",
    some "soon", some "soon", some "soon", some 5, false, some 3, 0⟩

def exDB3 : DBState := ⟨[exReplyQuery], [exStudent], [], [], 12, 1⟩

/-- A live schema whose `queries` table lacks `admin_reply_text` and
`admin_reply_at`, and whose `students` table lacks `is_blocked`. -/
def exSchema : SchemaState :=
  ⟨some ["id", "name", "email", "message", "status", "response",
         "admin_response", "admin_reply_seen", "category", "student_id",
         "created_at"],
    some ["id", "student_id", "name", "email", "password"],
    some modelAdminsCols, some modelFaqsCols, some modelBlockedEmailsCols⟩

/-- An oracle failing exactly the ALTER for `queries.admin_reply_text`. -/
def exFail : FailOracle := fun t c => t == "queries" && c == "admin_reply_text"

/-! ### Helper lemmas -/

theorem memB_iff (a : String) (l : List String) : memB a l = true ↔ a ∈ l := by
  induction l with
  | nil => simp [memB]
  | cons b bs ih => simp [memB, ih, beq_iff_eq, List.mem_cons]

theorem pyOr_absorb (a b : Option String) : pyOr a (pyOr a b) = pyOr a b := by
  cases a with
  | none => rfl
  | some s =>
    by_cases h : s = "" <;> simp [pyOr, h]

theorem pyOrS_absorb (a : Option String) (b : String) :
    pyOrS a (pyOrS a b) = pyOrS a b := by
  cases a with
  | none => rfl
  | some s =>
    by_cases h : s = "" <;> simp [pyOrS, h]

theorem find?_setFirstQuery (l : List QueryRow) (i : Nat) (q q' : QueryRow)
    (hfind : l.find? (fun r => r.id == i) = some q) (hid : q'.id = q.id) :
    (setFirstQuery i q' l).find? (fun r => r.id == i) = some q' := by
  induction l with
  | nil => simp [List.find?] at hfind
  | cons r rs ih =>
    by_cases h : (r.id == i) = true
    · have hq : r = q := by
        simp only [List.find?, h] at hfind
        exact Option.some.injEq _ _ ▸ hfind
      have hq' : (q'.id == i) = true := by
        rw [hid, ← hq]; exact h
      simp [setFirstQuery, h, List.find?, hq']
    · have hb : (r.id == i) = false := by
        cases hr : (r.id == i) <;> simp_all
      simp only [List.find?, hb] at hfind
      simp [setFirstQuery, hb, List.find?, ih hfind]

theorem setFirstQuery_collapse (l : List QueryRow) (i : Nat) (a b : QueryRow)
    (ha : (a.id == i) = true) :
    setFirstQuery i b (setFirstQuery i a l) = setFirstQuery i b l := by
  induction l with
  | nil => rfl
  | cons r rs ih =>
    by_cases h : (r.id == i) = true
    · simp [setFirstQuery, h, ha]
    · have hb : (r.id == i) = false := by
        cases hr : (r.id == i) <;> simp_all
      simp [setFirstQuery, hb, ih]

theorem rejectionOf_not_accepted (s : DBState) (nF eF mF : Option String)
    (sid : Option Nat) (r : SubmitResult)
    (h : rejectionOf s nF eF mF sid = some r) : isAccepted r = false := by
  unfold rejectionOf at h
  repeat' split at h
  all_goals
    first
    | (have hr := Option.some.inj h; subst hr; rfl)
    | exact absurd h (by simp)

theorem rejectionOf_eq_none_of_accepted (s : DBState) (nF eF cF mF : Option String)
    (sid : Option Nat) (fF : Bool) (now : Nat)
    (h : isAccepted (submit_query s nF eF cF mF sid fF now).result = true) :
    rejectionOf s nF eF mF sid = none := by
  cases hr : rejectionOf s nF eF mF sid with
  | none => rfl
  | some r =>
    have hna := rejectionOf_not_accepted s nF eF mF sid r hr
    rw [submit_query, hr] at h
    simp only [] at h
    rw [hna] at h
    cases h

theorem submit_query_eq_accept (s : DBState) (nF eF cF mF : Option String)
    (sid : Option Nat) (fF : Bool) (now : Nat)
    (h : isAccepted (submit_query s nF eF cF mF sid fF now).result = true) :
    submit_query s nF eF cF mF sid fF now =
      acceptQuery s (nF.getD "") (eF.getD "") (pyOrS cF "other") (mF.getD "") sid fF now := by
  rw [submit_query, rejectionOf_eq_none_of_accepted s nF eF cF mF sid fF now h]

theorem faqAggregate_queries (s : DBState) (t : String) (cat : Option String) :
    (faqAggregate s t cat).queries = s.queries := by
  unfold faqAggregate
  split <;> rfl

theorem acceptQuery_queries (s : DBState) (n e c m : String) (sid : Option Nat)
    (fF : Bool) (now : Nat) :
    (acceptQuery s n e c m sid fF now).state.queries =
      s.queries ++ [insertedQuery s n e c m sid now] := by
  unfold acceptQuery
  cases fF <;> simp [faqAggregate_queries]

theorem any_faq_eq_false {l : List FAQRow} {t : String}
    (h : ∀ f ∈ l, f.question = t → f.is_active = false) :
    (l.any fun f => f.question == t && f.is_active) = false := by
  rw [List.any_eq_false]
  intro f hf
  by_cases hq : f.question = t
  · simp [hq, h f hf hq]
  · simp [hq]

theorem faqAggregate_miss (s : DBState) (t : String) (cat : Option String)
    (h : (s.faqs.any fun f => f.question == t && f.is_active) = false) :
    faqAggregate s t cat =
      { s with faqs := s.faqs ++ [newFaqRow s t cat],
               nextFaqId := s.nextFaqId + 1 } := by
  simp [faqAggregate, h]

theorem incFirst_append_last {l : List FAQRow} {t : String}
    (h : ∀ f ∈ l, f.question ≠ t) (f0 : FAQRow)
    (hq : f0.question = t) (ha : f0.is_active = true) :
    incFirst t (l ++ [f0]) = l ++ [{ f0 with frequency := f0.frequency + 1 }] := by
  induction l with
  | nil => simp [incFirst, hq, ha]
  | cons f fs ih =>
    have hc : (f.question == t && f.is_active) = false := by
      simp [h f (List.mem_cons_self f fs)]
    simp [incFirst, hc, ih (fun g hg => h g (List.mem_cons_of_mem _ hg))]

theorem faqAggregate_hit_last (s : DBState) (t : String) (cat : Option String)
    (l : List FAQRow) (f0 : FAQRow) (hfaqs : s.faqs = l ++ [f0])
    (h : ∀ f ∈ l, f.question ≠ t) (hq : f0.question = t) (ha : f0.is_active = true) :
    faqAggregate s t cat =
      { s with faqs := l ++ [{ f0 with frequency := f0.frequency + 1 }] } := by
  have hany : (s.faqs.any fun f => f.question == t && f.is_active) = true := by
    rw [hfaqs, List.any_eq_true]
    exact ⟨f0, by simp, by simp [hq, ha]⟩
  rw [faqAggregate, if_pos hany, hfaqs, incFirst_append_last h f0 hq ha]

theorem filter_question_nil {l : List FAQRow} {t : String}
    (h : ∀ f ∈ l, f.question ≠ t) :
    (l.filter fun f => f.question == t) = [] := by
  rw [List.filter_eq_nil_iff]
  intro f hf
  simp [h f hf]

/-! ### C2: blocked submitters are rejected without a Query insert -/

/-- C2: a submission by an authenticated student whose `is_blocked`
flag is set, or an anonymous submission whose (trimmed, lowercased)
email has an active BlockedEmail entry, is rejected and leaves the
whole store — in particular the `queries` table — unchanged. -/
theorem submit_blocked_rejected :
    (∀ (s : DBState) (nF eF cF mF : Option String) (k : Nat) (fF : Bool) (now : Nat)
        (stu : StudentRow),
      k ≠ 0 →
      s.students.find? (fun st => st.id == k) = some stu →
      stu.is_blocked = true →
      (submit_query s nF eF cF mF (some k) fF now).state = s ∧
      isAccepted (submit_query s nF eF cF mF (some k) fF now).result = false) ∧
    (∀ (s : DBState) (nF eF cF mF : Option String) (fF : Bool) (now : Nat),
      emailBlockedHit s (eF.getD "") = true →
      (submit_query s nF eF cF mF none fF now).state = s ∧
      isAccepted (submit_query s nF eF cF mF none fF now).result = false) := by
  constructor
  · intro s nF eF cF mF k fF now stu hk hfind hb
    have hk' : (k != 0) = true := by simpa using hk
    rw [submit_query, rejectionOf]
    by_cases hv : (truthy nF && truthy eF && truthy mF) = true
    · simp [hv, hk', hfind, hb, isAccepted]
    · simp [hv, isAccepted]
  · intro s nF eF cF mF fF now hblk
    rw [submit_query, rejectionOf]
    by_cases hv : (truthy nF && truthy eF && truthy mF) = true
    · simp [hv, hblk, isAccepted]
    · simp [hv, isAccepted]

/-- C2 witness: the blocked student (id 4) and the blocked guest email
`x@example.com` are both rejected on a concrete store, which is left
unchanged. -/
theorem submit_blocked_rejected_witness :
    ((submit_query exDB (some "Eve") (some "eve@x.com") (some "other") (some "hi")
        (some 4) false 1).state = exDB ∧
      isAccepted (submit_query exDB (some "Eve") (some "eve@x.com") (some "other")
        (some "hi") (some 4) false 1).result = false) ∧
    ((submit_query exDB (some "Guest") (some "x@example.com") (some "other") (some "hi")
        none false 1).state = exDB ∧
      isAccepted (submit_query exDB (some "Guest") (some "x@example.com") (some "other")
        (some "hi") none false 1).result = false) :=
  ⟨submit_blocked_rejected.1 exDB (some "Eve") (some "eve@x.com") (some "other")
      (some "hi") 4 false 1 exBlockedStudent (by decide) (by decide) (by decide),
    submit_blocked_rejected.2 exDB (some "Guest") (some "x@example.com") (some "other")
      (some "hi") false 1 (by decide)⟩

theorem acceptQuery_state_fresh (s : DBState) (n e c m : String) (sid : Option Nat)
    (now : Nat)
    (hfresh : (s.faqs.any fun f => f.question == strip m && f.is_active) = false) :
    (acceptQuery s n e c m sid false now).state =
      { s with queries := s.queries ++ [insertedQuery s n e c m sid now]
               nextQueryId := s.nextQueryId + 1
               faqs := s.faqs ++ [⟨s.nextFaqId, strip m, none, 1, some (strip c), none, true⟩]
               nextFaqId := s.nextFaqId + 1 } := by
  have h1 := faqAggregate_miss
    { s with queries := s.queries ++ [insertedQuery s n e c m sid now]
             nextQueryId := s.nextQueryId + 1 }
    (strip m) (some (strip c)) hfresh
  simp only [acceptQuery]
  rw [if_neg (by simp)]
  rw [h1]
  rfl

theorem acceptQuery_state_hit (s : DBState) (n e c m : String) (sid : Option Nat)
    (now : Nat) (l : List FAQRow) (f0 : FAQRow)
    (hfaqs : s.faqs = l ++ [f0]) (h : ∀ f ∈ l, f.question ≠ strip m)
    (hq : f0.question = strip m) (ha : f0.is_active = true) :
    (acceptQuery s n e c m sid false now).state =
      { s with queries := s.queries ++ [insertedQuery s n e c m sid now]
               nextQueryId := s.nextQueryId + 1
               faqs := l ++ [{ f0 with frequency := f0.frequency + 1 }] } := by
  have h1 := faqAggregate_hit_last
    { s with queries := s.queries ++ [insertedQuery s n e c m sid now]
             nextQueryId := s.nextQueryId + 1 }
    (strip m) (some (strip c)) l f0 hfaqs h hq ha
  simp only [acceptQuery]
  rw [if_neg (by simp)]
  rw [h1]

/-! ### C3: FAQ aggregation deduplicates by exact question text -/

/-- C3: starting from a store holding no FAQ row for a question text,
two accepted submissions of the same message leave exactly one FAQ
row for that (trimmed) text, with frequency 2, and the first
submission creates it with answer unset, frequency 1, and the
submission's (defaulted, trimmed) category; two accepted submissions
of distinct texts leave two FAQ rows, one per text, each with
frequency 1. -/
theorem faq_aggregation_dedup :
    (∀ (s : DBState) (nF eF cF : Option String) (m : String) (sid : Option Nat)
        (now1 now2 : Nat),
      isAccepted (submit_query s nF eF cF (some m) sid false now1).result = true →
      isAccepted (submit_query (submit_query s nF eF cF (some m) sid false now1).state
          nF eF cF (some m) sid false now2).result = true →
      (∀ f ∈ s.faqs, f.question ≠ strip m) →
      (submit_query s nF eF cF (some m) sid false now1).state.faqs =
        s.faqs ++ [⟨s.nextFaqId, strip m, none, 1,
          some (strip (pyOrS cF "other")), none, true⟩] ∧
      ((submit_query (submit_query s nF eF cF (some m) sid false now1).state
          nF eF cF (some m) sid false now2).state.faqs.filter
            (fun f => f.question == strip m)) =
        [⟨s.nextFaqId, strip m, none, 2, some (strip (pyOrS cF "other")), none, true⟩]) ∧
    (∀ (s : DBState) (nF eF cF : Option String) (m1 m2 : String) (sid : Option Nat)
        (now1 now2 : Nat),
      strip m1 ≠ strip m2 →
      isAccepted (submit_query s nF eF cF (some m1) sid false now1).result = true →
      isAccepted (submit_query (submit_query s nF eF cF (some m1) sid false now1).state
          nF eF cF (some m2) sid false now2).result = true →
      (∀ f ∈ s.faqs, f.question ≠ strip m1) →
      (∀ f ∈ s.faqs, f.question ≠ strip m2) →
      ((submit_query (submit_query s nF eF cF (some m1) sid false now1).state
          nF eF cF (some m2) sid false now2).state.faqs.filter
            (fun f => f.question == strip m1)) =
        [⟨s.nextFaqId, strip m1, none, 1, some (strip (pyOrS cF "other")), none, true⟩] ∧
      ((submit_query (submit_query s nF eF cF (some m1) sid false now1).state
          nF eF cF (some m2) sid false now2).state.faqs.filter
            (fun f => f.question == strip m2)) =
        [⟨s.nextFaqId + 1, strip m2, none, 1,
          some (strip (pyOrS cF "other")), none, true⟩]) := by
  constructor
  · intro s nF eF cF m sid now1 now2 h1 h2 hnew
    have e1 := submit_query_eq_accept s nF eF cF (some m) sid false now1 h1
    simp only [Option.getD_some] at e1
    have hfresh1 : (s.faqs.any fun f => f.question == strip m && f.is_active) = false :=
      any_faq_eq_false (fun f hf hq => absurd hq (hnew f hf))
    have st1 := acceptQuery_state_fresh s (nF.getD "") (eF.getD "")
      (pyOrS cF "other") m sid now1 hfresh1
    have e2 := submit_query_eq_accept (submit_query s nF eF cF (some m) sid false now1).state
      nF eF cF (some m) sid false now2 h2
    simp only [Option.getD_some] at e2
    have st2 := acceptQuery_state_hit (submit_query s nF eF cF (some m) sid false now1).state
      (nF.getD "") (eF.getD "") (pyOrS cF "other") m sid now2 s.faqs
      ⟨s.nextFaqId, strip m, none, 1, some (strip (pyOrS cF "other")), none, true⟩
      (by rw [e1, st1]) hnew rfl rfl
    constructor
    · rw [e1, st1]
    · rw [e2, st2]
      simp only [List.filter_append, filter_question_nil hnew]
      simp
  · intro s nF eF cF m1 m2 sid now1 now2 hmm h1 h2 hnew1 hnew2
    have e1 := submit_query_eq_accept s nF eF cF (some m1) sid false now1 h1
    simp only [Option.getD_some] at e1
    have hfresh1 : (s.faqs.any fun f => f.question == strip m1 && f.is_active) = false :=
      any_faq_eq_false (fun f hf hq => absurd hq (hnew1 f hf))
    have st1 := acceptQuery_state_fresh s (nF.getD "") (eF.getD "")
      (pyOrS cF "other") m1 sid now1 hfresh1
    have e2 := submit_query_eq_accept (submit_query s nF eF cF (some m1) sid false now1).state
      nF eF cF (some m2) sid false now2 h2
    simp only [Option.getD_some] at e2
    have hnew2' : ∀ f ∈ (submit_query s nF eF cF (some m1) sid false now1).state.faqs,
        f.question ≠ strip m2 := by
      rw [e1, st1]
      intro f hf
      rcases List.mem_append.1 hf with hl | hr
      · exact hnew2 f hl
      · rcases List.mem_singleton.1 hr with rfl
        exact hmm
    have hfresh2 : ((submit_query s nF eF cF (some m1) sid false now1).state.faqs.any
        fun f => f.question == strip m2 && f.is_active) = false :=
      any_faq_eq_false (fun f hf hq => absurd hq (hnew2' f hf))
    have st2 := acceptQuery_state_fresh (submit_query s nF eF cF (some m1) sid false now1).state
      (nF.getD "") (eF.getD "") (pyOrS cF "other") m2 sid now2 hfresh2
    rw [e2, st2]
    have hfaqs1 : (submit_query s nF eF cF (some m1) sid false now1).state.faqs =
        s.faqs ++ [⟨s.nextFaqId, strip m1, none, 1,
          some (strip (pyOrS cF "other")), none, true⟩] := by
      rw [e1, st1]
    have hnext1 : (submit_query s nF eF cF (some m1) sid false now1).state.nextFaqId =
        s.nextFaqId + 1 := by
      rw [e1, st1]
    constructor
    · simp only [hfaqs1, hnext1, List.filter_append, List.append_assoc,
        filter_question_nil hnew1]
      simp [hmm, Ne.symm hmm]
    · simp only [hfaqs1, hnext1, List.filter_append, List.append_assoc,
        filter_question_nil hnew2]
      simp [hmm, Ne.symm hmm]

/-- C3 witness: two anonymous submissions of "When is exam week?" on a
concrete store create one FAQ row that ends with frequency 2. -/
theorem faq_aggregation_dedup_witness :
    (submit_query exDB (some "Alice") (some "alice@x.com") (some "exams")
        (some "When is exam week?") none false 1).state.faqs =
      exDB.faqs ++ [⟨exDB.nextFaqId, strip "When is exam week?", none, 1,
        some (strip (pyOrS (some "exams") "other")), none, true⟩] ∧
    ((submit_query (submit_query exDB (some "Alice") (some "alice@x.com") (some "exams")
          (some "When is exam week?") none false 1).state
        (some "Alice") (some "alice@x.com") (some "exams")
        (some "When is exam week?") none false 2).state.faqs.filter
          (fun f => f.question == strip "When is exam week?")) =
      [⟨exDB.nextFaqId, strip "When is exam week?", none, 2,
        some (strip (pyOrS (some "exams") "other")), none, true⟩] :=
  faq_aggregation_dedup.1 exDB (some "Alice") (some "alice@x.com") (some "exams")
    "When is exam week?" none 1 2 (by decide) (by decide) (by decide)

/-! ### C10: FAQ aggregation matches only active rows -/

/-- C10: when every FAQ row carrying the submitted (trimmed) question
text is inactive — in particular after an admin toggle deactivated
the only such row — an accepted submission with that exact text does
not increment the deactivated row but appends a second, active FAQ
row with frequency 1, so one question text is then represented by at
least two FAQ rows. -/
theorem faq_inactive_not_matched
    (s : DBState) (nF eF cF : Option String) (m : String) (sid : Option Nat)
    (now : Nat) (f0 : FAQRow)
    (hacc : isAccepted (submit_query s nF eF cF (some m) sid false now).result = true)
    (hmem : f0 ∈ s.faqs) (hq0 : f0.question = strip m) (_hin : f0.is_active = false)
    (hnoact : ∀ f ∈ s.faqs, f.question = strip m → f.is_active = false) :
    (submit_query s nF eF cF (some m) sid false now).state.faqs =
      s.faqs ++ [⟨s.nextFaqId, strip m, none, 1,
        some (strip (pyOrS cF "other")), none, true⟩] ∧
    2 ≤ ((submit_query s nF eF cF (some m) sid false now).state.faqs.filter
          (fun f => f.question == strip m)).length := by
  have e1 := submit_query_eq_accept s nF eF cF (some m) sid false now hacc
  simp only [Option.getD_some] at e1
  have hfresh : (s.faqs.any fun f => f.question == strip m && f.is_active) = false :=
    any_faq_eq_false hnoact
  have st1 := acceptQuery_state_fresh s (nF.getD "") (eF.getD "")
    (pyOrS cF "other") m sid now hfresh
  refine ⟨by rw [e1, st1], ?_⟩
  rw [e1, st1]
  simp only [List.filter_append]
  have hf0 : f0 ∈ s.faqs.filter (fun f => f.question == strip m) :=
    List.mem_filter.2 ⟨hmem, by simp [hq0]⟩
  have h1 : 1 ≤ (s.faqs.filter (fun f => f.question == strip m)).length :=
    List.length_pos_of_mem hf0
  simp only [List.length_append]
  have h2 : (List.filter (fun f => f.question == strip m)
      [(⟨s.nextFaqId, strip m, none, 1, some (strip (pyOrS cF "other")), none, true⟩ :
        FAQRow)]).length = 1 := by simp
  omega

/-- C10 witness: with only an inactive FAQ row for "Where is the
gym?", an accepted anonymous submission with that exact text appends
a second row and leaves two rows for the text. -/
theorem faq_inactive_not_matched_witness :
    (submit_query exDB2 (some "Guest") (some "g@x.com") (some "facilities")
        (some "Where is the gym?") none false 1).state.faqs =
      exDB2.faqs ++ [⟨exDB2.nextFaqId, strip "Where is the gym?", none, 1,
        some (strip (pyOrS (some "facilities") "other")), none, true⟩] ∧
    2 ≤ ((submit_query exDB2 (some "Guest") (some "g@x.com") (some "facilities")
          (some "Where is the gym?") none false 1).state.faqs.filter
            (fun f => f.question == strip "Where is the gym?")).length :=
  faq_inactive_not_matched exDB2 (some "Guest") (some "g@x.com") (some "facilities")
    "Where is the gym?" none 1 exInactiveFaq (by decide) (by decide) (by decide)
    (by decide) (by decide)

/-! ### C1: guest / student branch exclusivity of `update_status` -/

/-- C1: for an existing query, `update_status` branches exclusively on
the submitter type: when `student_id` is null (guest path) the stored
reply triple `admin_reply_text` / `admin_reply_at` /
`admin_reply_seen` is left untouched, and when `student_id` is
non-null (student path) no outbound email is dispatched and the
reply triple is set to (the provided response text, now, false). The
triple-value part is stated for a provided (nonempty, trimmed)
response text, since the source stores the stripped canonical
response. -/
theorem update_status_branch_exclusive
    (s : DBState) (qid : Nat) (stF rtF : Option String) (mc eF : Bool) (now : Nat)
    (q : QueryRow) (hfind : s.queries.find? (fun r => r.id == qid) = some q) :
    (q.student_id = none →
      ∃ q', (update_status s qid stF rtF mc eF now).state.queries.find?
              (fun r => r.id == qid) = some q' ∧
        q'.admin_reply_text = q.admin_reply_text ∧
        q'.admin_reply_at = q.admin_reply_at ∧
        q'.admin_reply_seen = q.admin_reply_seen) ∧
    (∀ k, q.student_id = some k →
      (∀ a, Event.emailSendAttempt a ∉ (update_status s qid stF rtF mc eF now).trace) ∧
      ∀ rt, rtF = some rt → rt ≠ "" → strip rt = rt →
        ∃ q', (update_status s qid stF rtF mc eF now).state.queries.find?
                (fun r => r.id == qid) = some q' ∧
          q'.admin_reply_text = some rt ∧
          q'.admin_reply_at = some now ∧
          q'.admin_reply_seen = false) := by
  cases hsid : q.student_id with
  | none =>
    refine ⟨fun _ => ?_, fun k hk => absurd hk (by simp)⟩
    refine ⟨{ q with status := pyOrS stF q.status
                     response := pyOr rtF q.response
                     admin_response := pyOr rtF q.admin_response }, ?_, rfl, rfl, rfl⟩
    simp only [update_status, hfind, hsid]
    exact find?_setFirstQuery _ _ _ _ hfind rfl
  | some k0 =>
    refine ⟨fun h => absurd h (by simp), fun k hk => ?_⟩
    constructor
    · intro a
      simp [update_status, hfind, hsid]
    · intro rt hrt hne htrim
      subst hrt
      refine ⟨{ q with status := pyOrS stF q.status
                       response := pyOr (some rt) q.response
                       admin_response := pyOr (some rt) q.admin_response
                       admin_reply_text :=
                         some (strip ((pyOr (pyOr (some rt) q.admin_response) (some rt)).getD ""))
                       admin_reply_at := some now
                       admin_reply_seen := false }, ?_, ?_, rfl, rfl⟩
      · simp only [update_status, hfind, hsid]
        exact find?_setFirstQuery _ _ _ _ hfind rfl
      · simp [pyOr, hne, htrim]

/-! ### C4: `update_status` sets status and both response fields -/

/-- C4: for every existing query and provided (present, nonempty)
status and response text, `update_status` reports Updated and stores
the new status, the legacy `response`, and the canonical
`admin_response`, all set to the provided values. -/
theorem update_status_sets_fields
    (s : DBState) (qid : Nat) (st rt : String) (mc eF : Bool) (now : Nat)
    (q : QueryRow) (hfind : s.queries.find? (fun r => r.id == qid) = some q)
    (hst : st ≠ "") (hrt : rt ≠ "") :
    (update_status s qid (some st) (some rt) mc eF now).result = .updated ∧
    ∃ q', (update_status s qid (some st) (some rt) mc eF now).state.queries.find?
            (fun r => r.id == qid) = some q' ∧
      q'.status = st ∧ q'.response = some rt ∧ q'.admin_response = some rt := by
  cases hsid : q.student_id with
  | none =>
    refine ⟨by simp [update_status, hfind, hsid], ?_⟩
    refine ⟨{ q with status := pyOrS (some st) q.status
                     response := pyOr (some rt) q.response
                     admin_response := pyOr (some rt) q.admin_response }, ?_, ?_, ?_, ?_⟩
    · simp only [update_status, hfind, hsid]
      exact find?_setFirstQuery _ _ _ _ hfind rfl
    · simp [pyOrS, hst]
    · simp [pyOr, hrt]
    · simp [pyOr, hrt]
  | some k =>
    refine ⟨by simp [update_status, hfind, hsid], ?_⟩
    refine ⟨{ q with status := pyOrS (some st) q.status
                     response := pyOr (some rt) q.response
                     admin_response := pyOr (some rt) q.admin_response
                     admin_reply_text :=
                       some (strip ((pyOr (pyOr (some rt) q.admin_response) (some rt)).getD ""))
                     admin_reply_at := some now
                     admin_reply_seen := false }, ?_, ?_, ?_, ?_⟩
    · simp only [update_status, hfind, hsid]
      exact find?_setFirstQuery _ _ _ _ hfind rfl
    · simp [pyOrS, hst]
    · simp [pyOr, hrt]
    · simp [pyOr, hrt]

/-- C1 witness: a concrete student query responded to with "done"
gets the in-app triple ("done", 5, false). -/
theorem update_status_branch_exclusive_witness :
    ∃ q', (update_status exDB 9 (some "Resolved") (some "done") true false 5).state.queries.find?
            (fun r => r.id == 9) = some q' ∧
      q'.admin_reply_text = some "done" ∧
      q'.admin_reply_at = some 5 ∧
      q'.admin_reply_seen = false :=
  ((update_status_branch_exclusive exDB 9 (some "Resolved") (some "done") true false 5
      exStudentQuery (by decide)).2 3 rfl).2 "done" rfl (by decide) (by decide)

/-- C4 witness: responding to a concrete guest query with
status "Resolved" and text "done" stores both response fields. -/
theorem update_status_sets_fields_witness :
    (update_status exDB 7 (some "Resolved") (some "done") true false 5).result = .updated ∧
    ∃ q', (update_status exDB 7 (some "Resolved") (some "done") true false 5).state.queries.find?
            (fun r => r.id == 7) = some q' ∧
      q'.status = "Resolved" ∧ q'.response = some "done" ∧ q'.admin_response = some "done" :=
  update_status_sets_fields exDB 7 "Resolved" "done" true false 5 exGuestQuery
    (by decide) (by decide) (by decide)

/-! ### C5: idempotence of `update_status` on stored fields -/

/-- C5 counterexample: applying the same (status, response) pair to a
student query twice, at times 10 and then 20, does not leave the
stored row as after a single application — the second call refreshes
`admin_reply_at`. -/
theorem update_status_twice_ne_once :
    (update_status (update_status exDB 9 (some "Resolved") (some "done") false false 10).state
        9 (some "Resolved") (some "done") false false 20).state ≠
      (update_status exDB 9 (some "Resolved") (some "done") false false 10).state := by
  decide

/-- C5 (amended): applying the same (status, response) pair twice
leaves the stored row exactly as a single application performed at
the second call's time; all stored fields other than the student-path
`admin_reply_at` timestamp are therefore as after one application,
and two calls at the same time (or any repeat on a guest query, whose
branch never touches the timestamp) coincide exactly. -/
theorem update_status_absorb
    (s : DBState) (qid : Nat) (stF rtF : Option String) (mc eF eF' : Bool) (t1 t2 : Nat) :
    (update_status (update_status s qid stF rtF mc eF t1).state qid stF rtF mc eF' t2).state =
      (update_status s qid stF rtF mc eF' t2).state := by
  cases hfind : s.queries.find? (fun r => r.id == qid) with
  | none =>
    simp [update_status, hfind]
  | some q =>
    have hqid : (q.id == qid) = true := by
      have h := List.find?_some hfind
      exact h
    obtain ⟨qi, qn, qe, qm, qc, qs, qr, qa, qrt, qrat, qrs, qsid, qca⟩ := q
    cases qsid with
    | none =>
      have h2 := find?_setFirstQuery s.queries qid _
        (⟨qi, qn, qe, qm, qc, pyOrS stF qs, pyOr rtF qr, pyOr rtF qa,
          qrt, qrat, qrs, none, qca⟩ : QueryRow) hfind rfl
      have hqi : (qi == qid) = true := hqid
      simp only [update_status, hfind, h2]
      simp [setFirstQuery_collapse, hqi, pyOr_absorb, pyOrS_absorb]
    | some k =>
      have h2 := find?_setFirstQuery s.queries qid _
        (⟨qi, qn, qe, qm, qc, pyOrS stF qs, pyOr rtF qr, pyOr rtF qa,
          some (strip ((pyOr (pyOr rtF qa) rtF).getD "")), some t1, false,
          some k, qca⟩ : QueryRow) hfind rfl
      have hqi : (qi == qid) = true := hqid
      simp only [update_status, hfind, h2]
      simp [setFirstQuery_collapse, hqi, pyOr_absorb, pyOrS_absorb]

/-! ### C8: primary mutation committed before best-effort side effects -/

/-- C8: on an accepted submission, the Query-insert commit strictly
precedes the FAQ-aggregation attempt in the request trace, and the
committed row set of `queries` is identical whether or not the FAQ
side effect fails; on a successful `update_status`, the
status/response commit is the first event of the trace and the stored
state is identical whether or not the email side effect fails. -/
theorem primary_commit_before_side_effects :
    (∀ (s : DBState) (nF eF cF mF : Option String) (sid : Option Nat) (fF : Bool)
        (now : Nat) (i : Nat),
      (submit_query s nF eF cF mF sid fF now).result = .accepted i →
      (submit_query s nF eF cF mF sid fF now).trace =
        [.commitQueryInsert i, .faqAggregationAttempt] ∧
      (submit_query s nF eF cF mF sid true now).state.queries =
        (submit_query s nF eF cF mF sid fF now).state.queries ∧
      (submit_query s nF eF cF mF sid fF now).state.queries =
        s.queries ++ [insertedQuery s (nF.getD "") (eF.getD "") (pyOrS cF "other")
          (mF.getD "") sid now]) ∧
    (∀ (s : DBState) (qid : Nat) (stF rtF : Option String) (mc eF : Bool) (now : Nat),
      (update_status s qid stF rtF mc eF now).result = .updated →
      (update_status s qid stF rtF mc eF now).trace.head? =
        some (.commitStatusUpdate qid) ∧
      (update_status s qid stF rtF mc true now).state =
        (update_status s qid stF rtF mc eF now).state) := by
  constructor
  · intro s nF eF cF mF sid fF now i h
    have hacc : isAccepted (submit_query s nF eF cF mF sid fF now).result = true := by
      rw [h]; rfl
    have hrej := rejectionOf_eq_none_of_accepted s nF eF cF mF sid fF now hacc
    have hi : i = s.nextQueryId := by
      rw [submit_query, hrej] at h
      simp only [acceptQuery, insertedQuery] at h
      exact (SubmitResult.accepted.inj h).symm
    subst hi
    refine ⟨?_, ?_, ?_⟩
    · rw [submit_query, hrej]
      simp [acceptQuery, insertedQuery]
    · rw [submit_query, hrej, submit_query, hrej, acceptQuery_queries, acceptQuery_queries]
    · rw [submit_query, hrej, acceptQuery_queries]
  · intro s qid stF rtF mc eF now h
    cases hfind : s.queries.find? (fun r => r.id == qid) with
    | none =>
      rw [update_status, hfind] at h
      exact absurd h (by simp)
    | some q =>
      cases hsid : q.student_id with
      | none =>
        constructor
        · simp [update_status, hfind, hsid]
        · simp [update_status, hfind, hsid]
      | some k =>
        constructor
        · simp [update_status, hfind, hsid]
        · simp [update_status, hfind, hsid]

/-- C8 witness: a concrete accepted guest submission and a concrete
successful response, instantiating both halves. -/
theorem primary_commit_before_side_effects_witness :
    ((submit_query exDB (some "Alice") (some "alice@x.com") (some "other") (some "hi")
        none false 1).trace =
      [.commitQueryInsert 10, .faqAggregationAttempt] ∧
      (submit_query exDB (some "Alice") (some "alice@x.com") (some "other") (some "hi")
        none true 1).state.queries =
        (submit_query exDB (some "Alice") (some "alice@x.com") (some "other") (some "hi")
          none false 1).state.queries ∧
      (submit_query exDB (some "Alice") (some "alice@x.com") (some "other") (some "hi")
        none false 1).state.queries =
        exDB.queries ++ [insertedQuery exDB ((some "Alice").getD "")
          ((some "alice@x.com").getD "") (pyOrS (some "other") "other")
          ((some "hi").getD "") none 1]) ∧
    ((update_status exDB 7 (some "Resolved") (some "done") true false 5).trace.head? =
      some (.commitStatusUpdate 7) ∧
      (update_status exDB 7 (some "Resolved") (some "done") true true 5).state =
        (update_status exDB 7 (some "Resolved") (some "done") true false 5).state) :=
  ⟨primary_commit_before_side_effects.1 exDB (some "Alice") (some "alice@x.com")
      (some "other") (some "hi") none false 1 10 (by decide),
    primary_commit_before_side_effects.2 exDB 7 (some "Resolved") (some "done")
      true false 5 (by decide)⟩

/-! ### C9: dashboard fetch marks unseen replies as seen -/

/-- C9: after one dashboard fetch by the owning student, every one of
that student's queries holding a nonempty `admin_reply_text` with
`admin_reply_seen = false` is stored with `admin_reply_seen = true`
and no other field changed ("set" is modelled as nonempty, matching
the source's truthiness test on the reply text). -/
theorem dashboard_marks_replies_seen
    (s : DBState) (sid : Nat) (i : Nat) (q : QueryRow) (t : String)
    (hq : s.queries[i]? = some q)
    (hsid : q.student_id = some sid)
    (ht : q.admin_reply_text = some t) (hne : t ≠ "")
    (hseen : q.admin_reply_seen = false) :
    (student_dashboard s (some sid)).1.queries[i]? =
      some { q with admin_reply_seen := true } := by
  simp only [student_dashboard]
  rw [List.getElem?_map, hq]
  simp [truthy, hsid, ht, hne, hseen]

/-- C9 witness: the concrete student query with an unseen reply "soon"
is stored as seen after its owner's dashboard fetch, all other fields
unchanged. -/
theorem dashboard_marks_replies_seen_witness :
    (student_dashboard exDB3 (some 3)).1.queries[0]? =
      some { exReplyQuery with admin_reply_seen := true } :=
  dashboard_marks_replies_seen exDB3 3 0 exReplyQuery "soon"
    (by decide) (by decide) (by decide) (by decide) (by decide)

/-! ### Schema reconciler lemmas -/

theorem memB_append (a : String) (l1 l2 : List String) :
    memB a (l1 ++ l2) = (memB a l1 || memB a l2) := by
  induction l1 with
  | nil => simp [memB]
  | cons b bs ih => simp [memB, ih, Bool.or_assoc]

theorem runAdds_ok (fail : FailOracle) (t : String) (snap : List String) :
    ∀ (cs cols : List String),
      (∀ c ∈ cs, fail t c = false) →
      runAdds fail t snap (some cols) cs =
        ⟨some (cols ++ cs.filter (fun c => !memB c snap)),
          cs.filter (fun c => !memB c snap), false⟩ := by
  intro cs
  induction cs with
  | nil =>
    intro cols _
    simp [runAdds]
  | cons c cs ih =>
    intro cols hok
    have hc : fail t c = false := hok c (List.mem_cons_self c cs)
    have hok' : ∀ x ∈ cs, fail t x = false :=
      fun x hx => hok x (List.mem_cons_of_mem _ hx)
    cases hm : memB c snap with
    | true => simp [runAdds, hm, ih cols hok', List.filter_cons]
    | false =>
      simp [runAdds, hm, hc, ih (cols ++ [c]) hok', List.filter_cons,
        List.append_assoc]

theorem runAdds_none (fail : FailOracle) (t : String) (snap : List String)
    (cs : List String) : (runAdds fail t snap none cs).table = none := by
  induction cs with
  | nil => rfl
  | cons c cs ih =>
    cases hm : memB c snap with
    | true => simpa [runAdds, hm] using ih
    | false => simp [runAdds, hm]

theorem runAdds_noop (fail : FailOracle) (t : String) (snap : List String)
    (tbl : Option (List String)) :
    ∀ cs : List String,
      (∀ c ∈ cs, memB c snap = true) →
      runAdds fail t snap tbl cs = ⟨tbl, [], false⟩ := by
  intro cs
  induction cs with
  | nil =>
    intro _
    rfl
  | cons c cs ih =>
    intro hin
    simp [runAdds, hin c (List.mem_cons_self c cs),
      ih (fun x hx => hin x (List.mem_cons_of_mem _ hx))]

theorem migrateTable_noop_some (fail : FailOracle) (t : String)
    (declared cols : List String) (hin : ∀ c ∈ declared, memB c cols = true) :
    migrateTable fail t declared (some cols) = ⟨some cols, [], false⟩ :=
  runAdds_noop fail t cols (some cols) declared hin

theorem migrateTable_complete (fail : FailOracle) (t : String)
    (declared : List String) (tbl : Option (List String)) (model : List String)
    (hok : ∀ c ∈ declared, fail t c = false)
    (hmodel : ∀ c ∈ declared, memB c model = true) :
    ∀ c ∈ declared,
      memB c ((ensureTable (migrateTable fail t declared tbl).table model).getD [])
        = true := by
  intro c hc
  cases tbl with
  | none =>
    have hnone : (migrateTable fail t declared none).table = none :=
      runAdds_none fail t [] declared
    rw [hnone]
    simpa [ensureTable] using hmodel c hc
  | some cols =>
    have hrun := runAdds_ok fail t cols declared cols hok
    rw [migrateTable] at *
    simp only [Option.getD_some]
    rw [hrun]
    simp only [ensureTable, Option.getD_some, memB_append]
    cases hm : memB c cols with
    | true => simp
    | false =>
      have hmem : c ∈ declared.filter (fun x => !memB x cols) :=
        List.mem_filter.2 ⟨hc, by simp [hm]⟩
      simp [(memB_iff c _).2 hmem]

theorem ensureTable_isSome (tbl : Option (List String)) (m : List String) :
    ∃ cols, ensureTable tbl m = some cols := by
  cases tbl <;> exact ⟨_, rfl⟩

/-! ### C6: failure isolation of single-column additions -/

/-- C6 counterexample: with `exFail` failing only the ALTER for
`queries.admin_reply_text`, the reconciler does not add the
subsequent column `admin_reply_at` of the same entity (whose own
alteration the oracle does not fail), refuting the claim that a
single-column failure is skipped without aborting reconciliation of
the remaining columns of that entity. -/
theorem migrate_not_per_column :
    exFail "queries" "admin_reply_at" = false ∧
    memB "admin_reply_at"
      (((migrate_additive_schema exFail exSchema).state.queries).getD []) = false := by
  decide

/-- C6 (amended): column additions are grouped into one guarded,
per-entity block with a commit per entity, not per column; a failing
alteration is logged and aborts only the remaining additions of its
own entity, while any entity none of whose own declared alterations
fails is reconciled completely, regardless of failures in the other
entities' blocks. -/
theorem migrate_per_entity_isolation (fail : FailOracle) (s : SchemaState) :
    ((∀ c ∈ queriesDeclared, fail "queries" c = false) →
      ∀ c ∈ queriesDeclared,
        memB c (((migrate_additive_schema fail s).state.queries).getD []) = true) ∧
    ((∀ c ∈ studentsDeclared, fail "students" c = false) →
      ∀ c ∈ studentsDeclared,
        memB c (((migrate_additive_schema fail s).state.students).getD []) = true) ∧
    ((∀ c ∈ adminsDeclared, fail "admins" c = false) →
      ∀ c ∈ adminsDeclared,
        memB c (((migrate_additive_schema fail s).state.admins).getD []) = true) := by
  refine ⟨fun hok => ?_, fun hok => ?_, fun hok => ?_⟩
  · exact migrateTable_complete fail "queries" queriesDeclared s.queries
      modelQueriesCols hok (by decide)
  · exact migrateTable_complete fail "students" studentsDeclared s.students
      modelStudentsCols hok (by decide)
  · exact migrateTable_complete fail "admins" adminsDeclared s.admins
      modelAdminsCols hok (by decide)

/-- C6 witness: under the same failing oracle and schema as the
counterexample, the `students` entity — whose own alteration does not
fail — is reconciled fully: `is_blocked` is added. -/
theorem migrate_per_entity_isolation_witness :
    memB "is_blocked"
      (((migrate_additive_schema exFail exSchema).state.students).getD []) = true :=
  (migrate_per_entity_isolation exFail exSchema).2.1 (by decide) "is_blocked" (by decide)

/-! ### C7: idempotence of schema reconciliation -/

/-- C7: with no alteration failing, running the reconciler a second
time over the schema the first run produced is a no-op: it returns
the identical schema state, adds no columns, and logs no errors. -/
theorem migrate_idempotent (s : SchemaState) :
    migrate_additive_schema noFail (migrate_additive_schema noFail s).state =
      ⟨(migrate_additive_schema noFail s).state, [], []⟩ := by
  obtain ⟨cq, hcq⟩ := ensureTable_isSome
    (migrateTable noFail "queries" queriesDeclared s.queries).table modelQueriesCols
  obtain ⟨cst, hcst⟩ := ensureTable_isSome
    (migrateTable noFail "students" studentsDeclared s.students).table modelStudentsCols
  obtain ⟨cad, hcad⟩ := ensureTable_isSome
    (migrateTable noFail "admins" adminsDeclared s.admins).table modelAdminsCols
  obtain ⟨cf, hcf⟩ := ensureTable_isSome s.faqs modelFaqsCols
  obtain ⟨cb, hcb⟩ := ensureTable_isSome s.blocked_emails modelBlockedEmailsCols
  have hq := migrateTable_complete noFail "queries" queriesDeclared s.queries
    modelQueriesCols (fun _ _ => rfl) (by decide)
  have hst := migrateTable_complete noFail "students" studentsDeclared s.students
    modelStudentsCols (fun _ _ => rfl) (by decide)
  have had := migrateTable_complete noFail "admins" adminsDeclared s.admins
    modelAdminsCols (fun _ _ => rfl) (by decide)
  rw [hcq] at hq
  rw [hcst] at hst
  rw [hcad] at had
  simp only [Option.getD_some] at hq hst had
  show migrate_additive_schema noFail
      { queries := ensureTable (migrateTable noFail "queries" queriesDeclared s.queries).table modelQueriesCols
        students := ensureTable (migrateTable noFail "students" studentsDeclared s.students).table modelStudentsCols
        admins := ensureTable (migrateTable noFail "admins" adminsDeclared s.admins).table modelAdminsCols
        faqs := ensureTable s.faqs modelFaqsCols
        blocked_emails := ensureTable s.blocked_emails modelBlockedEmailsCols } = _
  unfold migrate_additive_schema
  dsimp only
  rw [hcq, hcst, hcad, hcf, hcb]
  rw [migrateTable_noop_some noFail "queries" queriesDeclared cq hq,
    migrateTable_noop_some noFail "students" studentsDeclared cst hst,
    migrateTable_noop_some noFail "admins" adminsDeclared cad had]
  simp [ensureTable]

end CMP
